import Mathlib

/-!
Shallow embedding of `src/s3_audio_transcribe.py`, a Streamlit app that
lists audio objects in an S3 bucket, downloads a selected one to a
temporary file, transcribes it with a speech-to-text service, optionally
translates the transcript with a chat-completion service, offers the
results as downloads, and cleans up the temporary file.

The three external services (S3, Whisper, ChatCompletion) and the
filesystem are modelled as oracles supplied in a `Services` record: each
call either returns a value or raises, carrying the Python `str(e)` of
the exception.  The Streamlit UI surface is modelled by the observable
events the script emits: strings written to the page, download buttons
offered, the error and warning messages, and the temp-file state.
-/

namespace S3AudioTranscribe

/-- The extension tuple of line 33 of the source:
`('.mp3', '.mp4', '.mpeg', '.mpga', '.m4a', '.wav', '.webm')`. -/
def audioExtensions : List String :=
  [".mp3", ".mp4", ".mpeg", ".mpga", ".m4a", ".wav", ".webm"]

/-- Python `str.lower`, character by character (the keys and extensions
involved are ASCII, where this agrees with Python). -/
def pyLower (s : String) : String :=
  String.mk (s.data.map Char.toLower)

/-- Python `str.endswith` with a single suffix. -/
def pyEndsWith (s suf : String) : Bool :=
  suf.data.isSuffixOf s.data

/-- Python `str.startswith` with a single candidate. -/
def pyStartsWith (s p : String) : Bool :=
  p.data.isPrefixOf s.data

/-- The filter condition of line 33: `obj['Key'].lower().endswith((...))`.
Python `str.endswith` on a tuple is true when any listed suffix matches. -/
def isAudioKey (key : String) : Bool :=
  audioExtensions.any (fun e => pyEndsWith (pyLower key) e)

/-- `list_s3_audio_files` (source lines 28-35).  The listing response is
modelled by its optional `Contents` entry, a list of object keys
(`obj['Key']`); `response.get('Contents', [])` is `Option.getD`. -/
def list_s3_audio_files (contents : Option (List String)) : List String :=
  (contents.getD []).filter isAudioKey

/-- Python `str.rfind` restricted to a single character: the largest index
holding `c`, or `-1` when `c` does not occur. -/
def pyRfind (cs : List Char) (c : Char) : Int :=
  cs.enum.foldl (fun acc p => if p.2 = c then (p.1 : Int) else acc) (-1)

/-- Python `os.path.splitext` on POSIX: split at the last `'.'` that lies
after the last `'/'`, unless every character between them is a dot
(leading dots of the basename never start an extension). -/
def pySplitext (p : String) : String × String :=
  let cs := p.data
  let sepIndex := pyRfind cs '/'
  let dotIndex := pyRfind cs '.'
  if sepIndex < dotIndex then
    let between := (cs.drop (sepIndex + 1).toNat).take (dotIndex - sepIndex - 1).toNat
    if between.any (fun ch => ch != '.') then
      (String.mk (cs.take dotIndex.toNat), String.mk (cs.drop dotIndex.toNat))
    else (p, "")
  else (p, "")

/-- Python `os.path.join` on POSIX for two components. -/
def pyJoin (a b : String) : String :=
  if pyStartsWith b "/" then b
  else if a == "" || pyEndsWith a "/" then a ++ b
  else a ++ "/" ++ b

/-- Line 89: `os.path.join(tempfile.gettempdir(),
f"temp_audio_{os.getpid()}{os.path.splitext(selected_file)[1]}")`. -/
def temp_file_path (tempDir : String) (pid : Nat) (selectedFile : String) : String :=
  pyJoin tempDir ("temp_audio_" ++ toString pid ++ (pySplitext selectedFile).2)

/-- The `languages` dict of lines 69-77, as the association list the dict
iterates in (Python dicts preserve insertion order). -/
def languages : List (String × Option String) :=
  [("Original (No Translation)", none),
   ("Hindi", some "Hindi"),
   ("Marathi", some "Marathi"),
   ("Japanese", some "Japanese"),
   ("Spanish", some "Spanish"),
   ("French", some "French"),
   ("German", some "German")]

/-- `languages[target_language]`: `some v` when the key is present with
value `v`, `none` when the subscript would raise `KeyError`. -/
def languagesLookup (k : String) : Option (Option String) :=
  (languages.find? (fun p => p.1 == k)).map (fun p => p.2)

/-- Python truthiness of `languages[target_language]` at line 103:
`None` and `""` are falsy, any other string truthy. -/
def pyTruthy : Option String → Bool
  | none => false
  | some s => s != ""

/-- `str(e)` of the `KeyError` raised by `languages[k]` on a missing key:
the `repr` of the key, i.e. the key between single quotes (chr 39). -/
def keyErrorStr (k : String) : String :=
  String.mk [Char.ofNat 39] ++ k ++ String.mk [Char.ofNat 39]

/-- One chat message of the `messages` list at lines 53-56. -/
structure ChatMessage where
  role : String
  content : String
deriving DecidableEq

/-- Line 49: `f"Translate the following English text to {target_language}:\n\n{text}"`. -/
def translatePrompt (text targetLanguage : String) : String :=
  "Translate the following English text to " ++ targetLanguage ++ ":\n\n" ++ text

/-- The `messages` argument `translate_text` passes to
`openai.ChatCompletion.create` (lines 53-56). -/
def translate_text_messages (text targetLanguage : String) : List ChatMessage :=
  [{ role := "system", content := "You are a professional translator." },
   { role := "user", content := translatePrompt text targetLanguage }]

/-- `translate_text` (lines 47-58): issues one chat completion with the
two messages and returns the first choice's content, modelled by the
`complete` oracle. -/
def translate_text (complete : List ChatMessage → String)
    (text targetLanguage : String) : String :=
  complete (translate_text_messages text targetLanguage)

/-- The oracle behaviour of the external services and the filesystem for
one pipeline execution.  `Except.error e` stands for the call raising an
exception whose `str(e)` is `e`. -/
structure Services where
  /-- `s3_client.download_file(bucket_name, selected_file, temp_file_path)` (line 92). -/
  downloadResult : Except String Unit
  /-- Whether a raising download left a (partial) file at the temp path;
  the store client gives no guarantee either way, so it is an oracle. -/
  fileExistsOnDownloadFailure : Bool
  /-- `transcribe_audio(temp_file_path)` (lines 37-45, called at line 95). -/
  transcribeResult : Except String String
  /-- `translate_text(text, target_language)` (lines 47-58, called at
  line 105), as a function of the two arguments the code passes. -/
  translateResult : String → String → Except String String
  /-- Whether the cleanup's `os.open`/`os.close`/`os.remove` sequence
  (lines 141-142) succeeds. -/
  removeSucceeds : Bool
  /-- `str(e)` of the exception when the removal fails. -/
  removeErrMsg : String

/-- The observables of the `try` block (lines 87-135) once it has run:
what was written to the page, the recorded translator calls, the download
buttons offered, the `st.error` message if the block raised, and whether
the temp file exists when `finally` begins. -/
structure TryOutcome where
  transcriptShown : Option String
  translationShown : Option String
  translatorCalls : List (String × String)
  downloadsOffered : List (String × String)
  errorShown : Option String
  fileExists : Bool

/-- The `try`/`except` block of lines 87-135 for one button press:
download, transcribe, display the transcript, then either translate and
offer two downloads or offer one; any exception falls to line 135's
`st.error(f"An error occurred: {str(e)}")`. -/
def tryPhase (svc : Services) (selectedFile targetLanguage : String) : TryOutcome :=
  match svc.downloadResult with
  | .error e =>
    { transcriptShown := none, translationShown := none, translatorCalls := [],
      downloadsOffered := [], errorShown := some ("An error occurred: " ++ e),
      fileExists := svc.fileExistsOnDownloadFailure }
  | .ok _ =>
    match svc.transcribeResult with
    | .error e =>
      { transcriptShown := none, translationShown := none, translatorCalls := [],
        downloadsOffered := [], errorShown := some ("An error occurred: " ++ e),
        fileExists := true }
    | .ok transcript =>
      match languagesLookup targetLanguage with
      | none =>
        { transcriptShown := some transcript, translationShown := none,
          translatorCalls := [], downloadsOffered := [],
          errorShown := some ("An error occurred: " ++ keyErrorStr targetLanguage),
          fileExists := true }
      | some v =>
        if pyTruthy v then
          match svc.translateResult transcript (v.getD "") with
          | .error e =>
            { transcriptShown := some transcript, translationShown := none,
              translatorCalls := [(transcript, v.getD "")], downloadsOffered := [],
              errorShown := some ("An error occurred: " ++ e), fileExists := true }
          | .ok translated =>
            { transcriptShown := some transcript, translationShown := some translated,
              translatorCalls := [(transcript, v.getD "")],
              downloadsOffered :=
                [(selectedFile ++ "_transcript_original.txt", transcript),
                 (selectedFile ++ "_transcript_" ++ pyLower targetLanguage ++ ".txt",
                  translated)],
              errorShown := none, fileExists := true }
        else
          { transcriptShown := some transcript, translationShown := none,
            translatorCalls := [],
            downloadsOffered := [(selectedFile ++ "_transcript.txt", transcript)],
            errorShown := none, fileExists := true }

/-- What the `finally` block leaves behind: the temp-file state and the
`st.warning` message, if any. -/
structure CleanupResult where
  tempFileExistsAfter : Bool
  warningShown : Option String

/-- The `finally` block of lines 137-144: when the path variable is set
and truthy and the file exists, try to remove it; a raising removal is
downgraded to `st.warning(f"Could not remove temporary file: {str(e)}")`. -/
def cleanupPhase (svc : Services) (tempPath : Option String) (fileExists : Bool) :
    CleanupResult :=
  match tempPath with
  | none => { tempFileExistsAfter := fileExists, warningShown := none }
  | some p =>
    if p != "" && fileExists then
      if svc.removeSucceeds then
        { tempFileExistsAfter := false, warningShown := none }
      else
        { tempFileExistsAfter := true,
          warningShown := some ("Could not remove temporary file: " ++ svc.removeErrMsg) }
    else
      { tempFileExistsAfter := fileExists, warningShown := none }

/-- All observables of one pipeline execution (one button press). -/
structure Execution where
  tempPath : Option String
  transcriptShown : Option String
  translationShown : Option String
  translatorCalls : List (String × String)
  downloadsOffered : List (String × String)
  errorShown : Option String
  warningShown : Option String
  tempFileExistsAfter : Bool

/-- One button-triggered pipeline execution (lines 84-144): the temp path
is computed first (line 89, cannot raise), the `try` block runs, and the
`finally` block always runs afterwards. -/
def runPipeline (svc : Services) (tempDir : String) (pid : Nat)
    (selectedFile targetLanguage : String) : Execution :=
  let path := temp_file_path tempDir pid selectedFile
  let t := tryPhase svc selectedFile targetLanguage
  let c := cleanupPhase svc (some path) t.fileExists
  { tempPath := some path, transcriptShown := t.transcriptShown,
    translationShown := t.translationShown, translatorCalls := t.translatorCalls,
    downloadsOffered := t.downloadsOffered, errorShown := t.errorShown,
    warningShown := c.warningShown, tempFileExistsAfter := c.tempFileExistsAfter }

/-- One top-to-bottom script run (lines 60-144): the listing call at line
65 runs OUTSIDE any `try`, so a raising listing propagates out of the
script unhandled (`Except.error`); otherwise the selectbox picks an entry
of the filtered list (modelled by its index) and the pipeline runs only
when a file is selected and the button was pressed. -/
def runScript (listResult : Except String (Option (List String))) (svc : Services)
    (tempDir : String) (pid : Nat) (selectIdx : Nat) (targetLanguage : String)
    (buttonPressed : Bool) : Except String (Option Execution) :=
  match listResult with
  | .error e => .error e
  | .ok contents =>
    let audioFiles := list_s3_audio_files contents
    match audioFiles[selectIdx]? with
    | none => .ok none
    | some selectedFile =>
      if buttonPressed then
        .ok (some (runPipeline svc tempDir pid selectedFile targetLanguage))
      else
        .ok none

/-- The `str(e)` of the first exception the `try` block of lines 87-135
raises, if any, in source order: download, transcribe, the
`languages[target_language]` subscript, then translate. -/
def firstStageError (svc : Services) (targetLanguage : String) : Option String :=
  match svc.downloadResult with
  | .error e => some e
  | .ok _ =>
    match svc.transcribeResult with
    | .error e => some e
    | .ok t =>
      match languagesLookup targetLanguage with
      | none => some (keyErrorStr targetLanguage)
      | some v =>
        if pyTruthy v then
          match svc.translateResult t (v.getD "") with
          | .error e => some e
          | .ok _ => none
        else none

/-! ### Helper lemmas -/

/-- The computed temp path is a non-empty string (its basename starts with
the fixed prefix `temp_audio_`), so Python finds it truthy at line 139. -/
theorem temp_file_path_ne_empty (d : String) (pid : Nat) (f : String) :
    temp_file_path d pid f ≠ "" := by
  have hlen : 0 < (temp_file_path d pid f).length := by
    unfold temp_file_path pyJoin
    have h11 : (11 : Nat) ≤ ("temp_audio_" ++ toString pid ++ (pySplitext f).2).length := by
      rw [String.length_append, String.length_append]
      have : ("temp_audio_" : String).length = 11 := rfl
      omega
    split
    · omega
    · split
      · rw [String.length_append]; omega
      · rw [String.length_append, String.length_append]; omega
  intro h
  rw [h] at hlen
  simp at hlen

/-- The `finally` block's effect on the observables, for every execution:
the file is gone afterwards unless it existed and the removal raised, and
the warning appears exactly in that failing case. -/
theorem runPipeline_cleanup (svc : Services) (d : String) (pid : Nat) (f lang : String) :
    (runPipeline svc d pid f lang).tempFileExistsAfter
      = ((tryPhase svc f lang).fileExists && !svc.removeSucceeds)
    ∧ (runPipeline svc d pid f lang).warningShown
      = (if (tryPhase svc f lang).fileExists && !svc.removeSucceeds then
          some ("Could not remove temporary file: " ++ svc.removeErrMsg) else none) := by
  have hbne : (temp_file_path d pid f != "") = true :=
    bne_iff_ne.mpr (temp_file_path_ne_empty d pid f)
  cases h1 : (tryPhase svc f lang).fileExists <;>
    cases h2 : svc.removeSucceeds <;>
      simp [runPipeline, cleanupPhase, h1, h2, hbne]

/-- The `st.error` message of an execution is exactly the first raised
exception's `str`, prefixed by `An error occurred: `. -/
theorem tryPhase_errorShown (svc : Services) (f lang : String) :
    (tryPhase svc f lang).errorShown
      = (firstStageError svc lang).map (fun e => "An error occurred: " ++ e) := by
  rcases hd : svc.downloadResult with e | u
  · simp [tryPhase, firstStageError, hd]
  · rcases ht : svc.transcribeResult with e | t
    · simp [tryPhase, firstStageError, hd, ht]
    · rcases hL : languagesLookup lang with _ | v
      · simp [tryPhase, firstStageError, hd, ht, hL]
      · cases hv : pyTruthy v
        · simp [tryPhase, firstStageError, hd, ht, hL, hv]
        · rcases htr : svc.translateResult t (v.getD "") with e | tr
          · simp [tryPhase, firstStageError, hd, ht, hL, hv, htr]
          · simp [tryPhase, firstStageError, hd, ht, hL, hv, htr]

/-- A key of the `languages` dict whose value is a language name is equal
to that (non-empty) name: the dict maps every named language to itself. -/
theorem languagesLookup_named (k L : String) (h : languagesLookup k = some (some L)) :
    k = L ∧ L ≠ "" := by
  unfold languagesLookup at h
  cases hf : List.find? (fun p => p.1 == k) languages with
  | none => rw [hf] at h; simp at h
  | some pr =>
    rw [hf] at h
    simp only [Option.map_some'] at h
    have h2 : pr.2 = some L := by injection h
    have hmem := List.mem_of_find?_eq_some hf
    have hbeq := List.find?_some hf
    have hk : pr.1 = k := eq_of_beq hbeq
    simp only [languages, List.mem_cons, List.not_mem_nil, or_false] at hmem
    rcases hmem with rfl | rfl | rfl | rfl | rfl | rfl | rfl
    · exact absurd h2 (by simp)
    · injection h2 with h3; subst h3; exact ⟨hk.symm, by decide⟩
    · injection h2 with h3; subst h3; exact ⟨hk.symm, by decide⟩
    · injection h2 with h3; subst h3; exact ⟨hk.symm, by decide⟩
    · injection h2 with h3; subst h3; exact ⟨hk.symm, by decide⟩
    · injection h2 with h3; subst h3; exact ⟨hk.symm, by decide⟩
    · injection h2 with h3; subst h3; exact ⟨hk.symm, by decide⟩

/-! ### Claim theorems -/

/-- C3: for every storage listing response, the Lister returns exactly the
keys whose lowercase form ends with one of the seven audio extensions,
preserving the original relative order; `notes.TXT` is excluded,
`clip.MP3` is included, and `[a.wav, b.txt, c.mp3]` yields
`[a.wav, c.mp3]`. -/
theorem c3_lister_filters (l : List String) :
    List.Sublist (list_s3_audio_files (some l)) l
    ∧ (∀ k, k ∈ list_s3_audio_files (some l) ↔ (k ∈ l ∧ isAudioKey k = true))
    ∧ (∀ k, isAudioKey k = audioExtensions.any (fun e => pyEndsWith (pyLower k) e))
    ∧ list_s3_audio_files (some ["notes.TXT"]) = []
    ∧ list_s3_audio_files (some ["clip.MP3"]) = ["clip.MP3"]
    ∧ list_s3_audio_files (some ["a.wav", "b.txt", "c.mp3"]) = ["a.wav", "c.mp3"] := by
  refine ⟨?_, ?_, fun _ => rfl, by decide, by decide, by decide⟩
  · exact List.filter_sublist l
  · intro k
    simp [list_s3_audio_files, List.mem_filter]

/-- C9: the Lister is total and returns the empty sequence both when the
listing response has no `Contents` collection and when the bucket holds
no objects. -/
theorem c9_empty_listing :
    list_s3_audio_files none = [] ∧ list_s3_audio_files (some []) = [] :=
  ⟨rfl, rfl⟩

/-- C10: every Translator call sends exactly two messages: the fixed
system persona, and one user message whose content is literally
`Translate the following English text to {L}:\n\n{t}` — asserting the
source text is English no matter what the transcript actually is. -/
theorem c10_translator_prompt (t L : String) :
    translate_text_messages t L =
      [{ role := "system", content := "You are a professional translator." },
       { role := "user",
         content := "Translate the following English text to " ++ L ++ ":\n\n" ++ t }]
    ∧ (∀ complete, translate_text complete t L = complete (translate_text_messages t L)) :=
  ⟨rfl, fun _ => rfl⟩

/-- A fully successful run: download succeeds, Whisper returns `Bonjour`,
the chat completion returns `Hello`, removal succeeds. -/
def svcFrenchOk : Services :=
  { downloadResult := .ok (), fileExistsOnDownloadFailure := false,
    transcribeResult := .ok "Bonjour",
    translateResult := fun _ _ => .ok "Hello",
    removeSucceeds := true, removeErrMsg := "" }

/-- A run whose translation call raises with `str(e) = "boom"` after the
transcript `Bonjour` was already produced and displayed. -/
def svcTranslateBoom : Services :=
  { downloadResult := .ok (), fileExistsOnDownloadFailure := false,
    transcribeResult := .ok "Bonjour",
    translateResult := fun _ _ => .error "boom",
    removeSucceeds := true, removeErrMsg := "" }

/-- A run whose transcription call raises with `str(e) = "rate limited"`. -/
def svcTranscribeBoom : Services :=
  { downloadResult := .ok (), fileExistsOnDownloadFailure := false,
    transcribeResult := .error "rate limited",
    translateResult := fun _ _ => .ok "Hello",
    removeSucceeds := true, removeErrMsg := "" }

/-- C1: every pipeline execution creates exactly one temp path; the
cleanup runs after the stages complete or raise: with a working removal
the file is gone before the execution settles, a failing removal yields
the warning message and leaves the error reporting (and everything else
the `try` block produced) untouched — it is never re-raised and the
execution still settles. -/
theorem c1_temp_file_cleanup (svc : Services) (d : String) (pid : Nat) (f lang : String) :
    (runPipeline svc d pid f lang).tempPath = some (temp_file_path d pid f)
    ∧ (runPipeline svc d pid f lang).tempFileExistsAfter
        = ((tryPhase svc f lang).fileExists && !svc.removeSucceeds)
    ∧ (runPipeline svc d pid f lang).warningShown
        = (if (tryPhase svc f lang).fileExists && !svc.removeSucceeds then
            some ("Could not remove temporary file: " ++ svc.removeErrMsg) else none)
    ∧ (runPipeline svc d pid f lang).errorShown = (tryPhase svc f lang).errorShown
    ∧ (runPipeline { svc with removeSucceeds := false } d pid f lang).errorShown
        = (runPipeline { svc with removeSucceeds := true } d pid f lang).errorShown := by
  refine ⟨rfl, (runPipeline_cleanup svc d pid f lang).1,
    (runPipeline_cleanup svc d pid f lang).2, rfl, rfl⟩

/-- C2 counterexample: with the Translator raising `boom` on transcript
`Bonjour`, the execution ends in the error state, yet the transcript has
already been displayed — so the error state is not free of results, as
the claim asserts. -/
theorem c2_translate_failure_shows_transcript :
    (runPipeline svcTranslateBoom "/tmp" 1 "c.mp3" "French").errorShown
        = some "An error occurred: boom"
    ∧ (runPipeline svcTranslateBoom "/tmp" 1 "c.mp3" "French").transcriptShown
        = some "Bonjour" := by
  exact ⟨by decide, by decide⟩

/-- C2 (amended): an exception in any stage of the `try` block yields the
single error message carrying the cause string, skips the remaining
stages, offers no downloads and shows no translation, and the cleanup
still runs; the transcript is absent whenever the failure happened in
Downloading or Transcribing, while after a successful download and
transcription — so in particular under a Translating failure — the
already-displayed transcript stays visible. -/
theorem c2_stage_error_reporting (svc : Services) (d : String) (pid : Nat)
    (f lang e : String) (h : firstStageError svc lang = some e) :
    (runPipeline svc d pid f lang).errorShown = some ("An error occurred: " ++ e)
    ∧ (runPipeline svc d pid f lang).downloadsOffered = []
    ∧ (runPipeline svc d pid f lang).translationShown = none
    ∧ (runPipeline svc d pid f lang).tempFileExistsAfter
        = ((tryPhase svc f lang).fileExists && !svc.removeSucceeds)
    ∧ (∀ e2, svc.downloadResult = Except.error e2 →
        (runPipeline svc d pid f lang).transcriptShown = none
        ∧ (runPipeline svc d pid f lang).translatorCalls = [])
    ∧ (∀ e2, svc.transcribeResult = Except.error e2 →
        (runPipeline svc d pid f lang).transcriptShown = none
        ∧ (runPipeline svc d pid f lang).translatorCalls = [])
    ∧ (∀ t, svc.downloadResult = Except.ok () → svc.transcribeResult = Except.ok t →
        (runPipeline svc d pid f lang).transcriptShown = some t) := by
  refine ⟨?_, ?_, ?_, (runPipeline_cleanup svc d pid f lang).1, ?_, ?_, ?_⟩
  · show (tryPhase svc f lang).errorShown = _
    rw [tryPhase_errorShown, h]
    rfl
  · show (tryPhase svc f lang).downloadsOffered = []
    rcases hd : svc.downloadResult with e1 | u
    · simp [tryPhase, hd]
    · rcases ht : svc.transcribeResult with e1 | t
      · simp [tryPhase, hd, ht]
      · rcases hL : languagesLookup lang with _ | v
        · simp [tryPhase, hd, ht, hL]
        · cases hv : pyTruthy v
          · simp [firstStageError, hd, ht, hL, hv] at h
          · rcases htr : svc.translateResult t (v.getD "") with e1 | tr
            · simp [tryPhase, hd, ht, hL, hv, htr]
            · simp [firstStageError, hd, ht, hL, hv, htr] at h
  · show (tryPhase svc f lang).translationShown = none
    rcases hd : svc.downloadResult with e1 | u
    · simp [tryPhase, hd]
    · rcases ht : svc.transcribeResult with e1 | t
      · simp [tryPhase, hd, ht]
      · rcases hL : languagesLookup lang with _ | v
        · simp [tryPhase, hd, ht, hL]
        · cases hv : pyTruthy v
          · simp [firstStageError, hd, ht, hL, hv] at h
          · rcases htr : svc.translateResult t (v.getD "") with e1 | tr
            · simp [tryPhase, hd, ht, hL, hv, htr]
            · simp [firstStageError, hd, ht, hL, hv, htr] at h
  · intro e2 hd
    exact ⟨by simp [runPipeline, tryPhase, hd], by simp [runPipeline, tryPhase, hd]⟩
  · intro e2 ht
    rcases hd : svc.downloadResult with e1 | u
    · exact ⟨by simp [runPipeline, tryPhase, hd], by simp [runPipeline, tryPhase, hd]⟩
    · exact ⟨by simp [runPipeline, tryPhase, hd, ht], by simp [runPipeline, tryPhase, hd, ht]⟩
  · intro t hd ht
    show (tryPhase svc f lang).transcriptShown = some t
    rcases hL : languagesLookup lang with _ | v
    · simp [tryPhase, hd, ht, hL]
    · cases hv : pyTruthy v
      · simp [tryPhase, hd, ht, hL, hv]
      · rcases htr : svc.translateResult t (v.getD "") with e1 | tr
        · simp [tryPhase, hd, ht, hL, hv, htr]
        · simp [tryPhase, hd, ht, hL, hv, htr]

/-- C2 witness: the amended statement instantiated at the concrete
translation-failure run: error message shown, no downloads, and the
already-displayed transcript still visible. -/
theorem c2_stage_error_reporting_witness :
    (runPipeline svcTranslateBoom "/tmp" 1 "c.mp3" "French").errorShown
        = some ("An error occurred: " ++ "boom")
    ∧ (runPipeline svcTranslateBoom "/tmp" 1 "c.mp3" "French").downloadsOffered = []
    ∧ (runPipeline svcTranslateBoom "/tmp" 1 "c.mp3" "French").transcriptShown
        = some "Bonjour" := by
  have h := c2_stage_error_reporting svcTranslateBoom "/tmp" 1 "c.mp3" "French" "boom"
    (by decide)
  exact ⟨h.1, h.2.1, h.2.2.2.2.2.2 "Bonjour" rfl rfl⟩

/-- C4: with a named LanguageChoice the choice equals the language's
name, exactly one Translator call is made with the full transcript and
that name, the execution settles without error, and two downloads are
offered: `{key}_transcript_original.txt` holding the transcript and
`{key}_transcript_{language-lowercase}.txt` holding the translation. -/
theorem c4_named_language_translation (svc : Services) (d : String) (pid : Nat)
    (f lang L t tr : String)
    (hL : languagesLookup lang = some (some L))
    (hd : svc.downloadResult = Except.ok ())
    (ht : svc.transcribeResult = Except.ok t)
    (htr : svc.translateResult t L = Except.ok tr) :
    lang = L
    ∧ (runPipeline svc d pid f lang).translatorCalls = [(t, L)]
    ∧ (runPipeline svc d pid f lang).errorShown = none
    ∧ (runPipeline svc d pid f lang).downloadsOffered =
        [(f ++ "_transcript_original.txt", t),
         (f ++ "_transcript_" ++ pyLower L ++ ".txt", tr)] := by
  obtain ⟨hkL, hne⟩ := languagesLookup_named lang L hL
  subst hkL
  have hv : pyTruthy (some lang) = true := by
    simp [pyTruthy, hne]
  refine ⟨rfl, ?_, ?_, ?_⟩ <;>
    simp [runPipeline, tryPhase, hL, hd, ht, hv, htr]

/-- C4 witness: the French scenario of the spec: transcript `Bonjour`,
translation `Hello`, downloads `c.mp3_transcript_original.txt` and
`c.mp3_transcript_french.txt`. -/
theorem c4_named_language_translation_witness :
    (runPipeline svcFrenchOk "/tmp" 1 "c.mp3" "French").translatorCalls
        = [("Bonjour", "French")]
    ∧ (runPipeline svcFrenchOk "/tmp" 1 "c.mp3" "French").downloadsOffered =
        [("c.mp3_transcript_original.txt", "Bonjour"),
         ("c.mp3_transcript_french.txt", "Hello")] := by
  have h := c4_named_language_translation svcFrenchOk "/tmp" 1 "c.mp3" "French" "French"
    "Bonjour" "Hello" (by decide) rfl rfl rfl
  exact ⟨h.2.1, h.2.2.2.trans (by decide)⟩

/-- C5: when the LanguageChoice maps to `None` (the
`Original (No Translation)` entry), the Translator is never invoked in
any execution, and a successful execution offers exactly one download,
`{key}_transcript.txt`, holding the transcript. -/
theorem c5_no_translation (svc : Services) (d : String) (pid : Nat) (f lang : String)
    (h : languagesLookup lang = some none) :
    (runPipeline svc d pid f lang).translatorCalls = []
    ∧ (∀ t, svc.downloadResult = Except.ok () → svc.transcribeResult = Except.ok t →
        (runPipeline svc d pid f lang).downloadsOffered = [(f ++ "_transcript.txt", t)]
        ∧ (runPipeline svc d pid f lang).errorShown = none) := by
  constructor
  · show (tryPhase svc f lang).translatorCalls = []
    rcases hd : svc.downloadResult with e | u
    · simp [tryPhase, hd]
    · rcases ht : svc.transcribeResult with e | t
      · simp [tryPhase, hd, ht]
      · simp [tryPhase, hd, ht, h, pyTruthy]
  · intro t hd ht
    exact ⟨by simp [runPipeline, tryPhase, hd, ht, h, pyTruthy],
      by simp [runPipeline, tryPhase, hd, ht, h, pyTruthy]⟩

/-- C5 witness: the successful no-translation run offers the single
`c.mp3_transcript.txt` download and records no Translator call. -/
theorem c5_no_translation_witness :
    (runPipeline svcFrenchOk "/tmp" 1 "c.mp3" "Original (No Translation)").translatorCalls = []
    ∧ (runPipeline svcFrenchOk "/tmp" 1 "c.mp3" "Original (No Translation)").downloadsOffered
        = [("c.mp3_transcript.txt", "Bonjour")] := by
  have h := c5_no_translation svcFrenchOk "/tmp" 1 "c.mp3" "Original (No Translation)"
    (by decide)
  exact ⟨h.1, ((h.2 "Bonjour" rfl rfl).1).trans (by decide)⟩

/-- C6: for every execution that settles without error, the first offered
download — the original-transcript file, named either
`{key}_transcript_original.txt` or `{key}_transcript.txt` — carries
exactly the Transcriber's output string, unmodified. -/
theorem c6_original_transcript_roundtrip (svc : Services) (d : String) (pid : Nat)
    (f lang t : String)
    (ht : svc.transcribeResult = Except.ok t)
    (hs : (runPipeline svc d pid f lang).errorShown = none) :
    ∃ fileName, ((runPipeline svc d pid f lang).downloadsOffered).head? = some (fileName, t)
      ∧ (fileName = f ++ "_transcript_original.txt" ∨ fileName = f ++ "_transcript.txt") := by
  have hs2 : (tryPhase svc f lang).errorShown = none := hs
  rcases hd : svc.downloadResult with e | u
  · simp [tryPhase, hd] at hs2
  · rcases hL : languagesLookup lang with _ | v
    · simp [tryPhase, hd, ht, hL] at hs2
    · cases hv : pyTruthy v
      · exact ⟨f ++ "_transcript.txt",
          by simp [runPipeline, tryPhase, hd, ht, hL, hv], Or.inr rfl⟩
      · rcases htr : svc.translateResult t (v.getD "") with e | tr
        · simp [tryPhase, hd, ht, hL, hv, htr] at hs2
        · exact ⟨f ++ "_transcript_original.txt",
            by simp [runPipeline, tryPhase, hd, ht, hL, hv, htr], Or.inl rfl⟩

/-- C6 witness: in the successful French run the head download holds the
transcript `Bonjour` verbatim. -/
theorem c6_original_transcript_roundtrip_witness :
    ∃ fileName, ((runPipeline svcFrenchOk "/tmp" 1 "c.mp3" "French").downloadsOffered).head?
        = some (fileName, "Bonjour")
      ∧ (fileName = "c.mp3" ++ "_transcript_original.txt"
         ∨ fileName = "c.mp3" ++ "_transcript.txt") :=
  c6_original_transcript_roundtrip svcFrenchOk "/tmp" 1 "c.mp3" "French" "Bonjour" rfl
    (by decide)

/-- C7 counterexample: a transport error raised by the storage listing
call (line 65) is NOT converted into the user-visible pipeline error
message: it propagates out of the script unhandled, because that call
runs outside the pipeline's `try` block. -/
theorem c7_listing_error_uncaught :
    runScript (Except.error "NoSuchBucket") svcFrenchOk "/tmp" 1 0 "French" true
      = Except.error "NoSuchBucket" := rfl

/-- C7 (amended): transport errors raised inside the pipeline execution —
by the storage download, the speech-to-text call, or the chat-completion
call — are caught once at the top of the execution and shown as the one
message `An error occurred: {str(e)}`, identical in form for every error
type; an error of the storage listing call, however, happens outside the
`try` block and propagates unhandled instead of being converted. -/
theorem c7_transport_error_funnel (listErrMsg : String) (svc : Services) (d : String)
    (pid idx : Nat) (f lang e : String) (pressed : Bool)
    (h : firstStageError svc lang = some e) :
    runScript (Except.error listErrMsg) svc d pid idx lang pressed
        = Except.error listErrMsg
    ∧ (runPipeline svc d pid f lang).errorShown = some ("An error occurred: " ++ e) := by
  refine ⟨rfl, ?_⟩
  show (tryPhase svc f lang).errorShown = _
  rw [tryPhase_errorShown, h]
  rfl

/-- C7 witness: the funnel instantiated at a transcription-stage failure
with a listing error alongside. -/
theorem c7_transport_error_funnel_witness :
    runScript (Except.error "NoSuchBucket") svcTranscribeBoom "/tmp" 1 0 "French" true
        = Except.error "NoSuchBucket"
    ∧ (runPipeline svcTranscribeBoom "/tmp" 1 "c.mp3" "French").errorShown
        = some ("An error occurred: " ++ "rate limited") :=
  c7_transport_error_funnel "NoSuchBucket" svcTranscribeBoom "/tmp" 1 0 "c.mp3" "French"
    "rate limited" true (by decide)

/-- C8: the temp path is the system temp directory joined with a name
made of the fixed prefix `temp_audio_`, the process id, and the selected
key's extension as Python splits it off; the path thus ends in that
extension and does not depend on the key's base name — two keys with the
same extension give the same path. -/
theorem c8_temp_path_shape (d : String) (pid : Nat) (k k2 : String)
    (h : (pySplitext k2).2 = (pySplitext k).2) :
    temp_file_path d pid k = pyJoin d ("temp_audio_" ++ toString pid ++ (pySplitext k).2)
    ∧ (∃ stem, temp_file_path d pid k = stem ++ (pySplitext k).2)
    ∧ temp_file_path d pid k2 = temp_file_path d pid k := by
  refine ⟨rfl, ?_, ?_⟩
  · unfold temp_file_path pyJoin
    split
    · exact ⟨"temp_audio_" ++ toString pid, rfl⟩
    · split
      · exact ⟨d ++ ("temp_audio_" ++ toString pid), by
          simp [String.append_assoc]⟩
      · exact ⟨d ++ "/" ++ ("temp_audio_" ++ toString pid), by
          simp [String.append_assoc]⟩
  · unfold temp_file_path
    rw [h]

/-- C8 witness: `dir/song.mp3` and `c.mp3` share the extension `.mp3` and
so produce the same temp path, which ends in that extension. -/
theorem c8_temp_path_shape_witness :
    temp_file_path "/tmp" 42 "dir/song.mp3" = temp_file_path "/tmp" 42 "c.mp3"
    ∧ (∃ stem, temp_file_path "/tmp" 42 "c.mp3" = stem ++ (pySplitext "c.mp3").2) := by
  have h := c8_temp_path_shape "/tmp" 42 "c.mp3" "dir/song.mp3" (by decide)
  exact ⟨h.2.2, h.2.1⟩

end S3AudioTranscribe
